import Mathlib

/-!
Shallow embedding of `src/server.js` of the workoutapp-backend repository: a
single-endpoint Express relay that validates a workout-profile request body,
renders a prompt, calls an upstream chat-completion API, parses the returned
JSON and relays it.

Modelling conventions:
* JavaScript/JSON values are the inductive `JValue`; `undefined` is `Option.none`
  at access boundaries (a property lookup returns `Option JValue`).
* JSON numbers are modelled as integers (`Int`); floating-point values are not
  representable in the embedding, and no behaviour the claims mention depends
  on fractional numbers.
* The upstream `fetch` is a parameter of the handler (`UpstreamResult`):
  network rejection, a non-ok HTTP response with its raw body text, an ok
  response whose body fails to parse as JSON, or an ok response with its
  parsed JSON body.
* A thrown JavaScript exception is `Except.error`; the handler's `try/catch`
  is the outer `match` in `handlePlanRequest`.
-/

namespace WorkoutApp

/-- JSON / JavaScript values as they occur in `server.js`: request bodies,
upstream response bodies, and the parsed plan.  Numbers are integers (see the
module docstring). -/
inductive JValue where
  | null : JValue
  | bool : Bool → JValue
  | num : Int → JValue
  | str : String → JValue
  | arr : List JValue → JValue
  | obj : List (String × JValue) → JValue
deriving Repr

/-- JavaScript truthiness of a value: `null`, `false`, `0` and `""` are falsy;
every array and object is truthy. -/
def truthy : JValue → Bool
  | .null => false
  | .bool b => b
  | .num n => !(n == 0)
  | .str s => !(s == "")
  | .arr _ => true
  | .obj _ => true

/-- Truthiness of a possibly-`undefined` value (`none` = `undefined`). -/
def truthyOpt : Option JValue → Bool
  | none => false
  | some v => truthy v

/-- Truthiness of the `OPENAI_API_KEY` environment variable: unset
(`none`) and the empty string are falsy, as in `if (!OPENAI_API_KEY)`. -/
def envTruthy : Option String → Bool
  | none => false
  | some s => !(s == "")

/-- Lookup in an object's field list with JavaScript object semantics: when a
key occurs more than once the LAST binding wins (as in object literals and in
`JSON.parse`). -/
def assocGet (kvs : List (String × JValue)) (k : String) : Option JValue :=
  match kvs with
  | [] => none
  | (k', v) :: rest =>
    match assocGet rest k with
    | some w => some w
    | none => if k' == k then some v else none

/-- Property access `v[k]` for the keys used by `server.js` (`goal`,
`choices`, `message`, `content`, `weeks`, ...): objects look the key up,
primitives and arrays yield `undefined` (none of the accessed keys exists on
their prototypes).  Access on `null` throws a `TypeError`; callers model that
throw explicitly with an `isNull` test before calling. -/
def lookupProp : JValue → String → Option JValue
  | .obj kvs, k => assocGet kvs k
  | _, _ => none

/-- Whether a value is JavaScript `null`. -/
def isNull : JValue → Bool
  | .null => true
  | _ => false

/-- `x === null || x === undefined`, the guard of optional chaining `?.`. -/
def nullishOpt : Option JValue → Bool
  | none => true
  | some v => isNull v

mutual

/-- JavaScript `ToString` coercion, as performed by template-literal
interpolation and by `JSON.parse`'s implicit coercion of a non-string
argument: strings unchanged, numbers in decimal, `true` / `false` / `null`
keywords, arrays joined by commas with `null` elements rendered empty, plain
objects as `"[object Object]"`. -/
def jsToString : JValue → String
  | .null => "null"
  | .bool true => "true"
  | .bool false => "false"
  | .num n => toString n
  | .str s => s
  | .arr xs => jsArrJoin xs
  | .obj _ => "[object Object]"

/-- `Array.prototype.toString`: the elements' coercions joined by `","`,
`null` elements contributing the empty string. -/
def jsArrJoin : List JValue → String
  | [] => ""
  | v :: vs =>
    let hd := match v with
      | .null => ""
      | w => jsToString w
    match vs with
    | [] => hd
    | _ :: _ => hd ++ "," ++ jsArrJoin vs

end

/-- Index access `v[0]` on a non-nullish value, as in `data.choices?.[0]`:
first element of an array, first character of a non-empty string, the `"0"`
property of an object, `undefined` otherwise. -/
def index0 : JValue → Option JValue
  | .arr (x :: _) => some x
  | .arr [] => none
  | .str s =>
    match s.data with
    | [] => none
    | c :: _ => some (.str (String.mk [c]))
  | .obj kvs => assocGet kvs "0"
  | _ => none

mutual

/-- Decidable equality of values (the automatic derivation does not handle the
nested lists). -/
def decEqJValue : (a b : JValue) → Decidable (a = b)
  | .null, .null => .isTrue rfl
  | .bool x, .bool y =>
    if h : x = y then .isTrue (by rw [h]) else .isFalse (fun he => h (JValue.bool.inj he))
  | .num x, .num y =>
    if h : x = y then .isTrue (by rw [h]) else .isFalse (fun he => h (JValue.num.inj he))
  | .str x, .str y =>
    if h : x = y then .isTrue (by rw [h]) else .isFalse (fun he => h (JValue.str.inj he))
  | .arr xs, .arr ys =>
    match decEqJValueList xs ys with
    | .isTrue h => .isTrue (by rw [h])
    | .isFalse h => .isFalse (fun he => h (JValue.arr.inj he))
  | .obj xs, .obj ys =>
    match decEqJValueKVs xs ys with
    | .isTrue h => .isTrue (by rw [h])
    | .isFalse h => .isFalse (fun he => h (JValue.obj.inj he))
  | .null, .bool _ => .isFalse nofun
  | .null, .num _ => .isFalse nofun
  | .null, .str _ => .isFalse nofun
  | .null, .arr _ => .isFalse nofun
  | .null, .obj _ => .isFalse nofun
  | .bool _, .null => .isFalse nofun
  | .bool _, .num _ => .isFalse nofun
  | .bool _, .str _ => .isFalse nofun
  | .bool _, .arr _ => .isFalse nofun
  | .bool _, .obj _ => .isFalse nofun
  | .num _, .null => .isFalse nofun
  | .num _, .bool _ => .isFalse nofun
  | .num _, .str _ => .isFalse nofun
  | .num _, .arr _ => .isFalse nofun
  | .num _, .obj _ => .isFalse nofun
  | .str _, .null => .isFalse nofun
  | .str _, .bool _ => .isFalse nofun
  | .str _, .num _ => .isFalse nofun
  | .str _, .arr _ => .isFalse nofun
  | .str _, .obj _ => .isFalse nofun
  | .arr _, .null => .isFalse nofun
  | .arr _, .bool _ => .isFalse nofun
  | .arr _, .num _ => .isFalse nofun
  | .arr _, .str _ => .isFalse nofun
  | .arr _, .obj _ => .isFalse nofun
  | .obj _, .null => .isFalse nofun
  | .obj _, .bool _ => .isFalse nofun
  | .obj _, .num _ => .isFalse nofun
  | .obj _, .str _ => .isFalse nofun
  | .obj _, .arr _ => .isFalse nofun

/-- Decidable equality of value lists. -/
def decEqJValueList : (xs ys : List JValue) → Decidable (xs = ys)
  | [], [] => .isTrue rfl
  | [], _ :: _ => .isFalse nofun
  | _ :: _, [] => .isFalse nofun
  | x :: xs, y :: ys =>
    match decEqJValue x y with
    | .isFalse h => .isFalse (fun he => h (List.cons.inj he).1)
    | .isTrue h1 =>
      match decEqJValueList xs ys with
      | .isTrue h2 => .isTrue (by rw [h1, h2])
      | .isFalse h2 => .isFalse (fun he => h2 (List.cons.inj he).2)

/-- Decidable equality of field lists. -/
def decEqJValueKVs : (xs ys : List (String × JValue)) → Decidable (xs = ys)
  | [], [] => .isTrue rfl
  | [], _ :: _ => .isFalse nofun
  | _ :: _, [] => .isFalse nofun
  | (k1, v1) :: xs, (k2, v2) :: ys =>
    if hk : k1 = k2 then
      match decEqJValue v1 v2 with
      | .isFalse h => .isFalse (fun he => h (congrArg Prod.snd (List.cons.inj he).1))
      | .isTrue h1 =>
        match decEqJValueKVs xs ys with
        | .isTrue h2 => .isTrue (by rw [hk, h1, h2])
        | .isFalse h2 => .isFalse (fun he => h2 (List.cons.inj he).2)
    else .isFalse (fun he => hk (congrArg Prod.fst (List.cons.inj he).1))

end

instance : DecidableEq JValue := decEqJValue

/-! ## The prompt template of `buildPrompt` (`server.js` lines 20-78)

The JavaScript template literal is split at its five `\x24\x7b...\x7d`
interpolation sites into six fixed chunks, transcribed verbatim (newlines and
indentation included). -/

/-- Template text before the `goal` interpolation. -/
def promptChunk0 : String :=
  "\n    You are a professional strength & conditioning coach creating a safe, realistic workout plan.\n\n    User profile:\n    - Goal: "

/-- Template text between `goal` and `experience`. -/
def promptChunk1 : String :=
  "\n    - Experience level: "

/-- Template text between `experience` and `style`. -/
def promptChunk2 : String :=
  "\n    - Preferred workout style: "

/-- Template text between `style` and the first `daysPerWeek`. -/
def promptChunk3 : String :=
  "\n    - Days per week: "

/-- Template text between the first and second `daysPerWeek`. -/
def promptChunk4 : String :=
  "\n    - Duration: 6–8 weeks total\n\n    Requirements:\n    1. Create a structured training plan that lasts 6 weeks by default (you may go up to 8 if it makes sense).\n    2. Use the specified number of training days per week ("

/-- The requirements text between the second `daysPerWeek` and the JSON-only
instruction line. -/
def promptChunk5a : String :=
  ") and fill each day with an appropriate workout.\n    3. Match intensity and complexity to the user\x27s experience level.\n    4. Respect the style (e.g., Weightlifting, Pilates, HIIT, Cardio, Outdoor, Home Workouts).\n    5. Include rest or active recovery days where appropriate.\n    6. Avoid unsafe volume or crazy supersets. Assume normal healthy adult with no injuries.\n\n    "

/-- The template's JSON-only instruction line. -/
def jsonOnlyInstruction : String :=
  "Return ONLY valid JSON with this exact shape (no extra text):"

/-- The schema text after the JSON-only instruction line. -/
def promptChunk5b : String :=
  "\n\n    \x7b\n    \"weekCount\": number,\n    \"daysPerWeek\": number,\n    \"summary\": \x7b\n        \"title\": string,\n        \"description\": string,\n        \"notes\": string\n    \x7d,\n    \"weeks\": [\n        \x7b\n        \"weekNumber\": number,\n        \"focus\": string,\n        \"days\": [\n            \x7b\n            \"id\": string,\n            \"dayName\": string,\n            \"title\": string,\n            \"focus\": string,\n            \"durationMinutes\": number,\n            \"exerciseCount\": number,\n            \"style\": string,\n            \"experience\": string,\n            \"exercises\": [\n                \x7b\n                \"name\": string,\n                \"sets\": number,\n                \"reps\": string,\n                \"equipment\": string,\n                \"notes\": string\n                \x7d\n            ]\n            \x7d\n        ]\n        \x7d\n    ]\n    \x7d\n    "

/-- Template text after the second `daysPerWeek`: the remaining requirements,
the JSON-only instruction and the schema. -/
def promptChunk5 : String :=
  promptChunk5a ++ jsonOnlyInstruction ++ promptChunk5b

/-- Template-literal interpolation of a possibly-`undefined` value
(`String(undefined)` is `"undefined"`). -/
def jsToStringOpt : Option JValue → String
  | none => "undefined"
  | some v => jsToString v

/-- `buildPrompt` (`server.js` lines 20-78): renders the fixed template with
the four destructured fields interpolated by JavaScript `ToString`
(`daysPerWeek` appears twice). -/
def buildPrompt (goal experience style daysPerWeek : Option JValue) : String :=
  promptChunk0 ++ jsToStringOpt goal ++ promptChunk1 ++ jsToStringOpt experience ++
    promptChunk2 ++ jsToStringOpt style ++ promptChunk3 ++ jsToStringOpt daysPerWeek ++
    promptChunk4 ++ jsToStringOpt daysPerWeek ++ promptChunk5

/-! ## `JSON.parse`

A model of the JavaScript `JSON.parse` builtin as a fueled recursive-descent
parser over the character list of the (coerced-to-string) argument.  The
grammar is RFC 8259 JSON restricted to integer numerals (see the module
docstring); `\u` escapes outside the valid character range decode to the NUL
character. -/

/-- JSON insignificant whitespace. -/
def isJsonWs (c : Char) : Bool :=
  c == ' ' || c == '\t' || c == '\n' || c == '\r'

/-- Drop leading JSON whitespace. -/
def skipWs : List Char → List Char
  | [] => []
  | c :: cs => if isJsonWs c then skipWs cs else c :: cs

/-- Value of a hexadecimal digit, if any (by code point: `0`-`9` are 48-57,
`A`-`F` are 65-70, `a`-`f` are 97-102). -/
def hexVal (c : Char) : Option Nat :=
  let n := c.toNat
  if 48 ≤ n ∧ n ≤ 57 then some (n - 48)
  else if 97 ≤ n ∧ n ≤ 102 then some (n - 87)
  else if 65 ≤ n ∧ n ≤ 70 then some (n - 55)
  else none

/-- The left and right curly-brace characters. -/
def lbraceChar : Char := Char.ofNat 123

/-- See `lbraceChar`. -/
def rbraceChar : Char := Char.ofNat 125

/-- Parse the body of a JSON string after its opening quote; returns the
decoded characters and the input after the closing quote. -/
def parseStrChars : List Char → Option (List Char × List Char)
  | [] => none
  | c :: cs =>
    if c == '"' then some ([], cs)
    else if c == '\\' then
      match cs with
      | [] => none
      | e :: cs' =>
        if e == '"' || e == '\\' || e == '/' then
          (parseStrChars cs').map (fun p => (e :: p.1, p.2))
        else if e == 'b' then (parseStrChars cs').map (fun p => (Char.ofNat 8 :: p.1, p.2))
        else if e == 'f' then (parseStrChars cs').map (fun p => (Char.ofNat 12 :: p.1, p.2))
        else if e == 'n' then (parseStrChars cs').map (fun p => ('\n' :: p.1, p.2))
        else if e == 'r' then (parseStrChars cs').map (fun p => ('\r' :: p.1, p.2))
        else if e == 't' then (parseStrChars cs').map (fun p => ('\t' :: p.1, p.2))
        else if e == 'u' then
          match cs' with
          | h1 :: h2 :: h3 :: h4 :: cs'' =>
            match hexVal h1, hexVal h2, hexVal h3, hexVal h4 with
            | some a, some b, some c', some d =>
              (parseStrChars cs'').map
                (fun p => (Char.ofNat (((a * 16 + b) * 16 + c') * 16 + d) :: p.1, p.2))
            | _, _, _, _ => none
          | _ => none
        else none
    else if c.toNat < 32 then none
    else (parseStrChars cs).map (fun p => (c :: p.1, p.2))

/-- Decimal digits to a natural number. -/
def digitsToNat (ds : List Char) : Nat :=
  ds.foldl (fun acc c => acc * 10 + (c.toNat - '0'.toNat)) 0

/-- Parse a JSON number token (integer numerals only: an optional minus and
digits with no redundant leading zero; a fractional part or an exponent is
outside the embedding and rejected). -/
def parseNumToken (cs : List Char) : Option (Int × List Char) :=
  let signed := match cs with
    | c :: rest => if c == '-' then (true, rest) else (false, cs)
    | [] => (false, ([] : List Char))
  match signed.2 with
  | [] => none
  | d :: _ =>
    if !d.isDigit then none
    else
      let ds := signed.2.takeWhile (fun c => c.isDigit)
      let rest := signed.2.dropWhile (fun c => c.isDigit)
      if ds.length > 1 && d == '0' then none
      else
        let bad := match rest with
          | c :: _ => c == '.' || c == 'e' || c == 'E'
          | [] => false
        if bad then none
        else
          let n : Int := Int.ofNat (digitsToNat ds)
          some (if signed.1 then -n else n, rest)

mutual

/-- Parse one JSON value, returning it and the remaining input. -/
def parseVal : Nat → List Char → Option (JValue × List Char)
  | 0, _ => none
  | Nat.succ fuel, cs =>
    match skipWs cs with
    | [] => none
    | c :: rest =>
      if c == '"' then
        (parseStrChars rest).map (fun p => (.str (String.mk p.1), p.2))
      else if c == '[' then
        match skipWs rest with
        | c2 :: rest2 =>
          if c2 == ']' then some (.arr [], rest2)
          else (parseArrItems fuel (c2 :: rest2)).map (fun p => (.arr p.1, p.2))
        | [] => none
      else if c == lbraceChar then
        match skipWs rest with
        | c2 :: rest2 =>
          if c2 == rbraceChar then some (.obj [], rest2)
          else (parseObjItems fuel (c2 :: rest2)).map (fun p => (.obj p.1, p.2))
        | [] => none
      else
        match c :: rest with
        | 'n' :: 'u' :: 'l' :: 'l' :: r => some (.null, r)
        | 't' :: 'r' :: 'u' :: 'e' :: r => some (.bool true, r)
        | 'f' :: 'a' :: 'l' :: 's' :: 'e' :: r => some (.bool false, r)
        | cs' => (parseNumToken cs').map (fun p => (.num p.1, p.2))

/-- Parse the comma-separated items of a non-empty array up to `]`. -/
def parseArrItems : Nat → List Char → Option (List JValue × List Char)
  | 0, _ => none
  | Nat.succ fuel, cs =>
    match parseVal fuel cs with
    | none => none
    | some (v, cs1) =>
      match skipWs cs1 with
      | c :: rest =>
        if c == ',' then (parseArrItems fuel rest).map (fun p => (v :: p.1, p.2))
        else if c == ']' then some ([v], rest)
        else none
      | [] => none

/-- Parse the comma-separated members of a non-empty object up to the closing
brace. -/
def parseObjItems : Nat → List Char → Option (List (String × JValue) × List Char)
  | 0, _ => none
  | Nat.succ fuel, cs =>
    match skipWs cs with
    | c :: rest =>
      if c == '"' then
        match parseStrChars rest with
        | none => none
        | some (key, cs1) =>
          match skipWs cs1 with
          | c2 :: rest2 =>
            if c2 == ':' then
              match parseVal fuel rest2 with
              | none => none
              | some (v, cs2) =>
                match skipWs cs2 with
                | c3 :: rest3 =>
                  if c3 == ',' then
                    (parseObjItems fuel rest3).map
                      (fun p => ((String.mk key, v) :: p.1, p.2))
                  else if c3 == rbraceChar then some ([(String.mk key, v)], rest3)
                  else none
                | [] => none
            else none
          | [] => none
      else none
    | [] => none

end

/-- `JSON.parse` on a string: parse one value and require only whitespace to
remain; `none` models the `SyntaxError` throw.  The fuel bound is generous
(every parser step decrements it at most twice per consumed character). -/
def jsonParse (s : String) : Option JValue :=
  match parseVal (2 * s.length + 8) s.data with
  | some (v, rest) => if (skipWs rest).isEmpty then some v else none
  | none => none

/-! ## The `POST /api/generate-workout-plan` handler (`server.js` lines 80-171) -/

/-- The single outbound `fetch` the handler can perform (`server.js` lines
104-128): endpoint URL, model identifier, the two role-tagged messages, and
the sampling temperature (the float literal `0.8` is kept as its source text;
floating point is outside the embedding). -/
structure OutboundRequest where
  url : String
  model : String
  systemContent : String
  userContent : String
  temperature : String
deriving Repr, DecidableEq

/-- The outbound request built around a rendered prompt. -/
def planRequest (prompt : String) : OutboundRequest where
  url := "https://api.openai.com/v1/chat/completions"
  model := "gpt-4.1-mini"
  systemContent := "You are a helpful fitness coach that responds ONLY with valid JSON."
  userContent := prompt
  temperature := "0.8"

/-- Outcome of the one `await fetch` (a handler parameter): the promise
rejects; the response is non-ok with its raw body text (`server.js` lines
130-137); the response is ok but `openAiResponse.json()` throws; or the
response is ok with its parsed JSON body. -/
inductive UpstreamResult where
  | fetchRejects : UpstreamResult
  | notOk : String → UpstreamResult
  | bodyNotJson : UpstreamResult
  | ok : JValue → UpstreamResult
deriving Repr, DecidableEq

/-- What one request observably produces: the HTTP status and JSON body sent
to the client, and the outbound upstream request, if one was made (`none` =
no upstream call; the handler performs at most one by construction). -/
structure Outcome where
  status : Nat
  body : JValue
  upstreamCall : Option OutboundRequest
deriving Repr, DecidableEq

/-- The 400 missing-fields message (`server.js` lines 85-88). -/
def missingFieldsMsg : String :=
  "Missing required fields. Expect goal, experience, style, daysPerWeek."

/-- The 500 missing-credential message (`server.js` line 94). -/
def noKeyMsg : String := "OPENAI_API_KEY is not configured on the server."

/-- The 502 upstream-failure message (`server.js` line 134). -/
def upstreamFailMsg : String := "Failed to generate workout plan from AI."

/-- The 500 parse-failure message (`server.js` line 149). -/
def notJsonMsg : String := "AI response was not valid JSON."

/-- The 500 missing-`weeks` message (`server.js` line 156). -/
def missingWeeksMsg : String := "Workout plan missing \x27weeks\x27 array in AI response."

/-- The 500 catch-all message (`server.js` line 168). -/
def unexpectedMsg : String := "Unexpected server error."

/-- A one-field `\x7b "error": msg \x7d` response body. -/
def errBody (msg : String) : JValue := .obj [("error", .str msg)]

/-- `req.body || \x7b\x7d` (`server.js` line 82): a missing (`undefined`) or
otherwise falsy body is replaced by the empty object, so the destructuring
never throws. -/
def bodyOrEmptyObj : Option JValue → JValue
  | none => .obj []
  | some v => if truthy v then v else .obj []

/-- The validation condition `!goal || !experience || !style || !daysPerWeek`
over the destructured fields of the (defaulted) body (`server.js` line 84). -/
def missingFields (b : JValue) : Bool :=
  !truthyOpt (lookupProp b "goal") || !truthyOpt (lookupProp b "experience") ||
    !truthyOpt (lookupProp b "style") || !truthyOpt (lookupProp b "daysPerWeek")

/-- `data.choices?.[0]?.message?.content` (`server.js` lines 140-141):
the first access `data.choices` throws a `TypeError` when `data` is `null`
(`Except.error`); each later link is guarded by `?.`, which short-circuits a
nullish intermediate result to `undefined`. -/
def extractContent (data : JValue) : Except Unit (Option JValue) :=
  if isNull data then .error ()
  else
    match lookupProp data "choices" with
    | none => .ok none
    | some c =>
      if isNull c then .ok none
      else
        match index0 c with
        | none => .ok none
        | some f =>
          if isNull f then .ok none
          else
            match lookupProp f "message" with
            | none => .ok none
            | some m =>
              if isNull m then .ok none
              else .ok (lookupProp m "content")

/-- `Array.isArray(plan.weeks)` once the lookup result is at hand
(`server.js` line 154): true exactly for an array value. -/
def isArrayOpt : Option JValue → Bool
  | some (.arr _) => true
  | _ => false

/-- The `|| "\x7b\x7d"` default (`server.js` line 141): an absent
(`undefined`) or falsy extracted content is replaced by the empty-object
literal string. -/
def contentOrDefault : Option JValue → JValue
  | none => JValue.str "\x7b\x7d"
  | some v => if truthy v then v else JValue.str "\x7b\x7d"

/-- The body of the handler's `try` block (`server.js` lines 82-164), in
source order: default the body, validate the four fields, check the
credential, render the prompt, perform the upstream call, and parse and
shape-check the content.  `throw c` is a JavaScript exception escaping to the
`catch` block, carrying the upstream call made before the throw (if any). -/
def tryBlock (apiKey : Option String) (reqBody : Option JValue) (up : UpstreamResult) :
    Except (Option OutboundRequest) Outcome := do
  let b := bodyOrEmptyObj reqBody
  if missingFields b then
    return { status := 400, body := errBody missingFieldsMsg, upstreamCall := none }
  if !envTruthy apiKey then
    return { status := 500, body := errBody noKeyMsg, upstreamCall := none }
  let prompt := buildPrompt (lookupProp b "goal") (lookupProp b "experience")
    (lookupProp b "style") (lookupProp b "daysPerWeek")
  let call := planRequest prompt
  match up with
  | .fetchRejects => throw (some call)
  | .notOk text =>
    return { status := 502,
             body := .obj [("error", .str upstreamFailMsg), ("details", .str text)],
             upstreamCall := some call }
  | .bodyNotJson => throw (some call)
  | .ok data =>
    let contentOpt ← match extractContent data with
      | .ok v => pure v
      | .error _ => throw (some call)
    let content := contentOrDefault contentOpt
    match jsonParse (jsToString content) with
    | none => return { status := 500, body := errBody notJsonMsg, upstreamCall := some call }
    | some plan =>
      if isNull plan then
        throw (some call)
      else if !isArrayOpt (lookupProp plan "weeks") then
        return { status := 500, body := errBody missingWeeksMsg, upstreamCall := some call }
      else
        return { status := 200, body := .obj [("ok", .bool true), ("plan", plan)],
                 upstreamCall := some call }

/-- The whole handler: the `try` block with its `catch` (`server.js` lines
165-170), which converts any escaped exception into the 500 catch-all
response. -/
def handlePlanRequest (apiKey : Option String) (reqBody : Option JValue)
    (up : UpstreamResult) : Outcome :=
  match tryBlock apiKey reqBody up with
  | .ok o => o
  | .error call => { status := 500, body := errBody unexpectedMsg, upstreamCall := call }

/-! ## Concrete sample data used by witnesses and counterexamples -/

/-- The request body of the spec's worked example. -/
def sampleBody : JValue :=
  .obj [("goal", .str "fat-loss"), ("experience", .str "beginner"),
        ("style", .str "HIIT"), ("daysPerWeek", .num 3)]

/-- An upstream success body whose first choice's message carries the given
content value. -/
def sampleData (content : JValue) : JValue :=
  .obj [("choices", .arr [.obj [("message", .obj [("content", content)])]])]

/-- An upstream success around `sampleData`. -/
def upstreamWithContent (content : JValue) : UpstreamResult := .ok (sampleData content)

/-- The one outbound request a valid request body gives rise to: the fetch
around the prompt rendered from the body's four destructured fields (this is
the `call` value of `tryBlock` once validation has passed). -/
def requestCall (reqBody : Option JValue) : OutboundRequest :=
  planRequest (buildPrompt
    (lookupProp (bodyOrEmptyObj reqBody) "goal")
    (lookupProp (bodyOrEmptyObj reqBody) "experience")
    (lookupProp (bodyOrEmptyObj reqBody) "style")
    (lookupProp (bodyOrEmptyObj reqBody) "daysPerWeek"))

/-- A mocked upstream content string: a plan with a `weeks` array of length
three. -/
def planJson : String :=
  "\x7b\"weekCount\": 6, \"weeks\": [\x7b\"weekNumber\": 1\x7d, \x7b\"weekNumber\": 2\x7d, \x7b\"weekNumber\": 3\x7d]\x7d"

/-- The value `JSON.parse` yields on `planJson`. -/
def planVal : JValue :=
  .obj [("weekCount", .num 6),
        ("weeks", .arr [.obj [("weekNumber", .num 1)],
                        .obj [("weekNumber", .num 2)],
                        .obj [("weekNumber", .num 3)]])]

/-! ## Claims -/

/-- C1: whenever any of the four fields `goal`, `experience`, `style`,
`daysPerWeek` is absent or falsy in the (defaulted) request body, the handler
answers 400 with the missing-fields error body and makes no outbound call,
for every credential state and upstream behaviour. -/
theorem missing_fields_returns_400 (apiKey : Option String) (reqBody : Option JValue)
    (up : UpstreamResult)
    (h : missingFields (bodyOrEmptyObj reqBody) = true) :
    handlePlanRequest apiKey reqBody up =
      { status := 400, body := errBody missingFieldsMsg, upstreamCall := none } := by
  unfold handlePlanRequest tryBlock
  simp [h]
  rfl

/-- Witness for C1: the empty-object body is missing all four fields and is
answered 400 with no upstream call. -/
theorem missing_fields_returns_400_witness :
    missingFields (bodyOrEmptyObj (some (.obj []))) = true ∧
    handlePlanRequest none (some (.obj [])) (.notOk "x") =
      { status := 400, body := errBody missingFieldsMsg, upstreamCall := none } :=
  ⟨by decide, missing_fields_returns_400 none (some (.obj [])) (.notOk "x") (by decide)⟩

/-- C2 counterexample: the claim includes a parsed value of `null` among the
inputs that yield the missing-weeks 500, but on content `"null"` the code's
`plan.weeks` access throws a TypeError, so the handler answers with the 500
catch-all body, which differs from the missing-weeks body.  The first two
conjuncts show the claim's premises hold: the content parses as JSON to
`null`, and `null` lacks a `weeks` array. -/
theorem null_plan_hits_catch_not_missing_weeks :
    jsonParse (jsToString (contentOrDefault (some (.str "null")))) = some JValue.null ∧
    isArrayOpt (lookupProp JValue.null "weeks") = false ∧
    handlePlanRequest (some "test-key") (some sampleBody) (upstreamWithContent (.str "null")) =
      { status := 500, body := errBody unexpectedMsg,
        upstreamCall := some (requestCall (some sampleBody)) } ∧
    errBody unexpectedMsg ≠ errBody missingWeeksMsg :=
  ⟨by decide, by decide, rfl, by decide⟩

/-- C2 (amended): for every upstream success whose extracted content parses
as JSON to a NON-`null` value lacking a `weeks` array (such as `\x7b\x7d`,
numbers, or strings), the handler answers 500 with the missing-weeks body
(on parsed `null` the `weeks` property access throws instead and the 500
catch-all body is returned). -/
theorem nonnull_plan_missing_weeks_returns_500 (apiKey : Option String)
    (reqBody : Option JValue) (data : JValue) (contentOpt : Option JValue) (plan : JValue)
    (hf : missingFields (bodyOrEmptyObj reqBody) = false)
    (hk : envTruthy apiKey = true)
    (hc : extractContent data = .ok contentOpt)
    (hp : jsonParse (jsToString (contentOrDefault contentOpt)) = some plan)
    (hnn : isNull plan = false)
    (hw : isArrayOpt (lookupProp plan "weeks") = false) :
    handlePlanRequest apiKey reqBody (.ok data) =
      { status := 500, body := errBody missingWeeksMsg,
        upstreamCall := some (requestCall reqBody) } := by
  unfold handlePlanRequest tryBlock
  simp [hf, hk, hc, hp, hnn, hw]
  rfl

/-- Witness for the amended C2: content `"5"` parses to the number `5`,
which lacks a `weeks` array, and the handler answers 500 missing-weeks. -/
theorem nonnull_plan_missing_weeks_returns_500_witness :
    missingFields (bodyOrEmptyObj (some sampleBody)) = false ∧
    envTruthy (some "test-key") = true ∧
    extractContent (sampleData (.str "5")) = .ok (some (.str "5")) ∧
    jsonParse (jsToString (contentOrDefault (some (.str "5")))) = some (.num 5) ∧
    isNull (.num 5) = false ∧
    isArrayOpt (lookupProp (.num 5) "weeks") = false ∧
    handlePlanRequest (some "test-key") (some sampleBody) (upstreamWithContent (.str "5")) =
      { status := 500, body := errBody missingWeeksMsg,
        upstreamCall := some (requestCall (some sampleBody)) } :=
  ⟨by decide, by decide, rfl, by decide, by decide, by decide,
    nonnull_plan_missing_weeks_returns_500 (some "test-key") (some sampleBody)
      (sampleData (.str "5")) (some (.str "5")) (.num 5)
      (by decide) (by decide) rfl (by decide) (by decide) (by decide)⟩

/-- C3: for any strings `g`, `e`, `s` and any integer `d`, the rendered
prompt literally contains each of the four input values verbatim (as exact
substrings, with no escaping) and contains the template's JSON-only
instruction line; determinism is definitional, since `buildPrompt` is a pure
function of exactly the four fields. -/
theorem buildPrompt_contains_inputs_and_json_only_instruction
    (g e s : String) (d : Int) :
    (∃ a b, buildPrompt (some (.str g)) (some (.str e)) (some (.str s)) (some (.num d)) =
      a ++ g ++ b) ∧
    (∃ a b, buildPrompt (some (.str g)) (some (.str e)) (some (.str s)) (some (.num d)) =
      a ++ e ++ b) ∧
    (∃ a b, buildPrompt (some (.str g)) (some (.str e)) (some (.str s)) (some (.num d)) =
      a ++ s ++ b) ∧
    (∃ a b, buildPrompt (some (.str g)) (some (.str e)) (some (.str s)) (some (.num d)) =
      a ++ toString d ++ b) ∧
    (∃ a b, buildPrompt (some (.str g)) (some (.str e)) (some (.str s)) (some (.num d)) =
      a ++ jsonOnlyInstruction ++ b) := by
  refine ⟨⟨promptChunk0,
      promptChunk1 ++ e ++ promptChunk2 ++ s ++ promptChunk3 ++ toString d ++
        promptChunk4 ++ toString d ++ promptChunk5, ?_⟩,
    ⟨promptChunk0 ++ g ++ promptChunk1,
      promptChunk2 ++ s ++ promptChunk3 ++ toString d ++ promptChunk4 ++
        toString d ++ promptChunk5, ?_⟩,
    ⟨promptChunk0 ++ g ++ promptChunk1 ++ e ++ promptChunk2,
      promptChunk3 ++ toString d ++ promptChunk4 ++ toString d ++ promptChunk5, ?_⟩,
    ⟨promptChunk0 ++ g ++ promptChunk1 ++ e ++ promptChunk2 ++ s ++ promptChunk3,
      promptChunk4 ++ toString d ++ promptChunk5, ?_⟩,
    ⟨promptChunk0 ++ g ++ promptChunk1 ++ e ++ promptChunk2 ++ s ++ promptChunk3 ++
        toString d ++ promptChunk4 ++ toString d ++ promptChunk5a,
      promptChunk5b, ?_⟩⟩ <;>
  simp [buildPrompt, jsToStringOpt, jsToString, promptChunk5, String.append_assoc]

/-- C4: when the credential is unset or empty, every request whose body has
all four fields truthy is answered 500 with the configuration-error body and
no outbound call, for every upstream behaviour. -/
theorem no_api_key_returns_500 (apiKey : Option String) (reqBody : Option JValue)
    (up : UpstreamResult)
    (hf : missingFields (bodyOrEmptyObj reqBody) = false)
    (hk : envTruthy apiKey = false) :
    handlePlanRequest apiKey reqBody up =
      { status := 500, body := errBody noKeyMsg, upstreamCall := none } := by
  unfold handlePlanRequest tryBlock
  simp [hf, hk]
  rfl

/-- Witness for C4: a valid body with an unset credential is answered 500
with no upstream call. -/
theorem no_api_key_returns_500_witness :
    missingFields (bodyOrEmptyObj (some sampleBody)) = false ∧
    envTruthy none = false ∧
    handlePlanRequest none (some sampleBody) (.notOk "x") =
      { status := 500, body := errBody noKeyMsg, upstreamCall := none } :=
  ⟨by decide, by decide, no_api_key_returns_500 none (some sampleBody) (.notOk "x")
    (by decide) (by decide)⟩

/-- C5: for every non-ok upstream response, the handler answers 502 with the
upstream-failure error and the raw upstream body text in `details`; exactly
one outbound call is recorded (the handler performs at most one by
construction, so the call is not retried). -/
theorem upstream_not_ok_returns_502 (apiKey : Option String) (reqBody : Option JValue)
    (text : String)
    (hf : missingFields (bodyOrEmptyObj reqBody) = false)
    (hk : envTruthy apiKey = true) :
    handlePlanRequest apiKey reqBody (.notOk text) =
      { status := 502,
        body := .obj [("error", .str upstreamFailMsg), ("details", .str text)],
        upstreamCall := some (requestCall reqBody) } := by
  unfold handlePlanRequest tryBlock
  simp [hf, hk]
  rfl

/-- Witness for C5: a concrete upstream failure text is relayed in
`details` with status 502. -/
theorem upstream_not_ok_returns_502_witness :
    missingFields (bodyOrEmptyObj (some sampleBody)) = false ∧
    envTruthy (some "test-key") = true ∧
    handlePlanRequest (some "test-key") (some sampleBody) (.notOk "upstream failure detail") =
      { status := 502,
        body := .obj [("error", .str upstreamFailMsg),
                      ("details", .str "upstream failure detail")],
        upstreamCall := some (requestCall (some sampleBody)) } :=
  ⟨by decide, by decide,
    upstream_not_ok_returns_502 (some "test-key") (some sampleBody)
      "upstream failure detail" (by decide) (by decide)⟩

/-- C6 counterexample: the empty string is a present content value that is
not parseable as JSON, yet the handler answers with the missing-weeks body,
not the JSON-parse error body: the `|| "\x7b\x7d"` default also replaces
falsy PRESENT content. -/
theorem empty_content_skips_parse_error :
    extractContent (sampleData (.str "")) = .ok (some (.str "")) ∧
    jsonParse (jsToString (JValue.str "")) = none ∧
    handlePlanRequest (some "test-key") (some sampleBody) (upstreamWithContent (.str "")) =
      { status := 500, body := errBody missingWeeksMsg,
        upstreamCall := some (requestCall (some sampleBody)) } ∧
    errBody missingWeeksMsg ≠ errBody notJsonMsg :=
  ⟨rfl, by decide, rfl, by decide⟩

/-- C6 (amended): for every upstream success whose extracted content is
present AND truthy (in particular non-empty) but not parseable as JSON, the
handler answers 500 with the JSON-parse error body (an empty-string content
is instead replaced by the `"\x7b\x7d"` default and yields the missing-weeks
error). -/
theorem truthy_unparseable_content_returns_500 (apiKey : Option String)
    (reqBody : Option JValue) (data : JValue) (c : JValue)
    (hf : missingFields (bodyOrEmptyObj reqBody) = false)
    (hk : envTruthy apiKey = true)
    (hc : extractContent data = .ok (some c))
    (ht : truthy c = true)
    (hp : jsonParse (jsToString c) = none) :
    handlePlanRequest apiKey reqBody (.ok data) =
      { status := 500, body := errBody notJsonMsg,
        upstreamCall := some (requestCall reqBody) } := by
  unfold handlePlanRequest tryBlock
  simp [hf, hk, hc, contentOrDefault, ht, hp]
  rfl

/-- Witness for the amended C6: the non-empty non-JSON content `"not json"`
is answered 500 with the JSON-parse error body. -/
theorem truthy_unparseable_content_returns_500_witness :
    missingFields (bodyOrEmptyObj (some sampleBody)) = false ∧
    envTruthy (some "test-key") = true ∧
    extractContent (sampleData (.str "not json")) = .ok (some (.str "not json")) ∧
    truthy (.str "not json") = true ∧
    jsonParse (jsToString (JValue.str "not json")) = none ∧
    handlePlanRequest (some "test-key") (some sampleBody)
        (upstreamWithContent (.str "not json")) =
      { status := 500, body := errBody notJsonMsg,
        upstreamCall := some (requestCall (some sampleBody)) } :=
  ⟨by decide, by decide, rfl, by decide, by decide,
    truthy_unparseable_content_returns_500 (some "test-key") (some sampleBody)
      (sampleData (.str "not json")) (.str "not json")
      (by decide) (by decide) rfl (by decide) (by decide)⟩

/-- C7: on the spec's worked example — the sample body, a configured
credential, and an upstream success whose content is valid JSON with a
`weeks` array of length 3 — the handler answers 200 with
`\x7b ok: true, plan: <the parsed upstream JSON> \x7d`, the plan relayed
unmodified. -/
theorem sample_request_returns_200_with_plan (apiKey : Option String)
    (hk : envTruthy apiKey = true) :
    jsonParse planJson = some planVal ∧
    lookupProp planVal "weeks" =
      some (.arr [.obj [("weekNumber", .num 1)], .obj [("weekNumber", .num 2)],
                  .obj [("weekNumber", .num 3)]]) ∧
    handlePlanRequest apiKey (some sampleBody) (upstreamWithContent (.str planJson)) =
      { status := 200, body := .obj [("ok", .bool true), ("plan", planVal)],
        upstreamCall := some (requestCall (some sampleBody)) } := by
  refine ⟨by decide, by decide, ?_⟩
  unfold handlePlanRequest tryBlock
  simp [hk]
  rfl

/-- Witness for C7: the worked example with a concrete credential. -/
theorem sample_request_returns_200_with_plan_witness :
    envTruthy (some "test-key") = true ∧
    (jsonParse planJson = some planVal ∧
      lookupProp planVal "weeks" =
        some (.arr [.obj [("weekNumber", .num 1)], .obj [("weekNumber", .num 2)],
                    .obj [("weekNumber", .num 3)]]) ∧
      handlePlanRequest (some "test-key") (some sampleBody)
          (upstreamWithContent (.str planJson)) =
        { status := 200, body := .obj [("ok", .bool true), ("plan", planVal)],
          upstreamCall := some (requestCall (some sampleBody)) }) :=
  ⟨by decide, sample_request_returns_200_with_plan (some "test-key") (by decide)⟩

/-- C8 counterexample: a present empty-string content is replaced by the
`"\x7b\x7d"` default even though it is not absent — the handler proceeds to
the weeks shape check (missing-weeks body) instead of attempting to parse the
empty string (which would give the JSON-parse error) — so the default is not
applied "exactly when the content is absent". -/
theorem present_falsy_content_still_defaults :
    extractContent (sampleData (.str "")) = .ok (some (.str "")) ∧
    contentOrDefault (some (.str "")) = JValue.str "\x7b\x7d" ∧
    handlePlanRequest (some "key-two") (some sampleBody) (upstreamWithContent (.str "")) =
      { status := 500, body := errBody missingWeeksMsg,
        upstreamCall := some (requestCall (some sampleBody)) } ∧
    errBody missingWeeksMsg ≠ errBody notJsonMsg :=
  ⟨rfl, by decide, rfl, by decide⟩

/-- C8 (amended): the content taken for parsing is the first completion's
message content, and when it is absent OR falsy (empty string, `0`, `false`,
`null`) it defaults to the empty-object literal `"\x7b\x7d"` — such an
upstream success never produces the JSON-parse error and instead proceeds to
the weeks shape check, failing it with the missing-weeks 500 since
`\x7b\x7d` has no `weeks`. -/
theorem falsy_content_defaults_to_empty_object (apiKey : Option String)
    (reqBody : Option JValue) (data : JValue) (contentOpt : Option JValue)
    (hf : missingFields (bodyOrEmptyObj reqBody) = false)
    (hk : envTruthy apiKey = true)
    (hc : extractContent data = .ok contentOpt)
    (hfalsy : truthyOpt contentOpt = false) :
    handlePlanRequest apiKey reqBody (.ok data) =
      { status := 500, body := errBody missingWeeksMsg,
        upstreamCall := some (requestCall reqBody) } := by
  have hdef : contentOrDefault contentOpt = JValue.str "\x7b\x7d" := by
    cases contentOpt with
    | none => rfl
    | some v =>
      simp [truthyOpt] at hfalsy
      simp [contentOrDefault, hfalsy]
  unfold handlePlanRequest tryBlock
  simp [hf, hk, hc, hdef]
  rfl

/-- Witness for the amended C8: an upstream success whose message has no
`content` field (absent content) yields the missing-weeks 500, not the
JSON-parse error. -/
theorem falsy_content_defaults_to_empty_object_witness :
    missingFields (bodyOrEmptyObj (some sampleBody)) = false ∧
    envTruthy (some "test-key") = true ∧
    extractContent (.obj [("choices", .arr [.obj [("message", .obj [])]])]) = .ok none ∧
    truthyOpt none = false ∧
    handlePlanRequest (some "test-key") (some sampleBody)
        (.ok (.obj [("choices", .arr [.obj [("message", .obj [])]])])) =
      { status := 500, body := errBody missingWeeksMsg,
        upstreamCall := some (requestCall (some sampleBody)) } :=
  ⟨by decide, by decide, rfl, by decide,
    falsy_content_defaults_to_empty_object (some "test-key") (some sampleBody)
      (.obj [("choices", .arr [.obj [("message", .obj [])]])]) none
      (by decide) (by decide) rfl (by decide)⟩

/-- C9: every exception that escapes the `try` block (every `Except.error`
of `tryBlock`, covering the unclassified throw points: a rejected `fetch`, a
non-JSON ok-response body, a `null` upstream JSON body, and a parsed `null`
plan) is caught at the request boundary and converted to the 500 catch-all
response; no exception propagates, as `handlePlanRequest` is a total
function into `Outcome`. -/
theorem escaped_exception_returns_500 (apiKey : Option String) (reqBody : Option JValue)
    (up : UpstreamResult) (c : Option OutboundRequest)
    (h : tryBlock apiKey reqBody up = .error c) :
    handlePlanRequest apiKey reqBody up =
      { status := 500, body := errBody unexpectedMsg, upstreamCall := c } := by
  unfold handlePlanRequest
  rw [h]

/-- Witness for C9: a rejected `fetch` on a valid request escapes the `try`
block and is answered with the 500 catch-all body. -/
theorem escaped_exception_returns_500_witness :
    tryBlock (some "test-key") (some sampleBody) .fetchRejects =
      .error (some (requestCall (some sampleBody))) ∧
    handlePlanRequest (some "test-key") (some sampleBody) .fetchRejects =
      { status := 500, body := errBody unexpectedMsg,
        upstreamCall := some (requestCall (some sampleBody)) } :=
  ⟨rfl, escaped_exception_returns_500 (some "test-key") (some sampleBody) .fetchRejects
    (some (requestCall (some sampleBody))) rfl⟩

/-- C10: a request with an absent body (`undefined` or `null` instead of an
object) does not throw: `req.body || \x7b\x7d` defaults it to the empty
object, and the request is answered with the 400 missing-fields response and
no outbound call, for every credential state and upstream behaviour. -/
theorem absent_body_returns_400 (apiKey : Option String) (up : UpstreamResult) :
    handlePlanRequest apiKey none up =
      { status := 400, body := errBody missingFieldsMsg, upstreamCall := none } ∧
    handlePlanRequest apiKey (some .null) up =
      { status := 400, body := errBody missingFieldsMsg, upstreamCall := none } :=
  ⟨rfl, rfl⟩

end WorkoutApp
